import Mathlib

/-!
Shallow embedding of the `a11y-schema` (focus-patterns) tabs pattern.

The embedding follows `src/core/utils.ts` and `src/patterns/tabs/tabs.ts`:

* DOM elements are modelled by `Elem` (tabs and panels) and `TablistEl`
  (the tablist), recording exactly the attributes the controller reads or
  writes.  `getAttribute` returning `null` is `none`; a JavaScript falsy
  attribute check `!el.getAttribute(x)` is `attrFalsy` (null or empty
  string).  The `id` property is a `String`, `""` when absent (JS falsy).
* Side effects of the controller (console reporting, the live-region
  announcement, the `onChange` callback, listener attachment, focus moves
  and `preventDefault`) are recorded as an explicit `Effect` list.
* `Math.random`-based suffixes of `generateId` are abstracted by suffix
  streams threaded into construction (`rndT`, `rndP`); no claim depends on
  their values.
* Exceptions thrown by strict-mode validation propagate out of the
  constructor while DOM mutations already performed persist; this is
  modelled by `InitOutcome.threw` carrying the state at the throw.
-/

set_option linter.unusedVariables false

/-- A DOM element as seen by the tabs controller: only the properties the
controller reads or writes. -/
structure Elem where
  id : String
  role : Option String
  ariaSelected : Option String
  ariaControls : Option String
  ariaLabelledby : Option String
  tabindex : Option String
  hidden : Bool
  textContent : String
  hasFocusableContent : Bool
  deriving DecidableEq, Repr

instance : Inhabited Elem :=
  ⟨{ id := "", role := none, ariaSelected := none, ariaControls := none,
     ariaLabelledby := none, tabindex := none, hidden := false,
     textContent := "", hasFocusableContent := false }⟩

/-- The tablist element: role, `aria-orientation` and its class list. -/
structure TablistEl where
  role : Option String
  ariaOrientation : Option String
  classes : List String
  deriving DecidableEq, Repr

/-- Resolved configuration (`Required<TabsConfig>` in `tabs.ts`): the
string-typed fields keep their source string types; `onChange` is modelled
as an emitted effect rather than a stored function; `idPref` is the
source's id-prefix configuration field. -/
structure TabsConfig where
  strict : Bool
  activation : String
  orientation : String
  loop : String
  idPref : String
  announceChanges : Bool
  deriving DecidableEq, Repr

/-- Observable side effects of the controller. -/
inductive Effect where
  | consoleError (msg : String)
  | consoleWarn (msg : String)
  | announce (msg : String)
  | onChange (index : Nat) (tab : Elem)
  | addClickListener (tabIdx : Nat)
  | addKeydownListener (tabIdx : Nat)
  | focus (tabIdx : Int)
  | preventDefault
  deriving DecidableEq, Repr

/-- The mutable state of one `Tabs` instance. -/
structure TabsState where
  tablist : Option TablistEl
  tabs : List Elem
  panels : List Elem
  currentIndex : Nat
  deriving DecidableEq, Repr

/-- JavaScript falsiness of a `getAttribute` result: `null` or `""`. -/
def attrFalsy : Option String → Bool
  | none => true
  | some s => s == ""

/-- Error and warning message constants of `tabs.ts`. -/
def NO_TABLIST : String := "focus-patterns: No tablist found in container"

def NO_TABS_OR_PANELS : String := "focus-patterns: No tabs or panels found"

def MISMATCH_COUNT : String := "focus-patterns: Number of tabs and panels do not match"

def INVALID_TAB_INDEX : String := "focus-patterns: Invalid tab index"

def MISSING_TAB_ROLE : String := "Missing role=\"tab\" on tab element"

def MISSING_PANEL_ROLE : String := "Missing role=\"tabpanel\" on panel element"

def MISSING_TAB_ID : String := "Missing ID on tab element"

def MISSING_PANEL_ID : String := "Missing ID on panel element"

/-- `utils.ts` `getNextElement`: next/previous index in an array with
wrapping (`loop = true`) or clamping (`loop = false`).  The two `if`
statements of each branch run in sequence, as in the source. -/
def getNextElement {α : Type} (array : List α) (currentIndex : Int)
    (direction : Int) (loop : Bool) : Int :=
  let length : Int := array.length
  let nextIndex := currentIndex + direction
  if loop then
    let n1 := if nextIndex < 0 then length - 1 else nextIndex
    if n1 ≥ length then 0 else n1
  else
    let n1 := if nextIndex < 0 then 0 else nextIndex
    if n1 ≥ length then length - 1 else n1

/-- The spec's §4.1 contract names the utility
`nextIndex(length, current, direction, loop)`; the source function
`getNextElement` receives the array and uses only its length, so the
spec-level function is `getNextElement` applied to any array of the given
length. -/
def nextIndex (n : Nat) (current direction : Int) (loop : Bool) : Int :=
  getNextElement (List.replicate n ()) current direction loop

/-- `utils.ts` `generateId`: prefix plus a `Math.random`-derived suffix.
The suffix is abstracted as a parameter; no property proved here depends
on its value. -/
def generateId (pre : String) (rnd : String) : String :=
  pre ++ "-" ++ rnd

/-- Indexed map over a list, mirroring `forEach`-style iteration with the
element index: `mapFrom f i [x0, x1, ...] = [f i x0, f (i+1) x1, ...]`. -/
def mapFrom {α : Type} (f : Nat → α → α) : Nat → List α → List α
  | _, [] => []
  | i, x :: xs => f i x :: mapFrom f (i + 1) xs

/-- JavaScript `Array.prototype.findIndex`: first index whose element
satisfies the predicate, `-1` if none. -/
def findIndexAux {α : Type} (p : α → Bool) : List α → Nat → Int
  | [], _ => -1
  | x :: xs, i => if p x then (i : Int) else findIndexAux p xs (i + 1)

def findIndexJs {α : Type} (p : α → Bool) (l : List α) : Int :=
  findIndexAux p l 0

/-- `tabs.ts` `isValidTabIndex`. -/
def isValidTabIndex (s : TabsState) (index : Int) : Bool :=
  0 ≤ index && index < (s.tabs.length : Int)

/-- The per-tab update of `tabs.ts` `updateTabStates`: selected/unselected
`aria-selected` and `tabindex`. -/
def updateOneTab (selectedIndex i : Nat) (tab : Elem) : Elem :=
  let isSelected := i == selectedIndex
  { tab with
    ariaSelected := some (if isSelected then "true" else "false"),
    tabindex := some (if isSelected then "0" else "-1") }

/-- The per-panel update of `tabs.ts` `updateTabStates`: the `forEach` runs
over the tabs, so panel `i` is touched only when a tab exists at `i`. -/
def updateOnePanel (selectedIndex tabsLen i : Nat) (panel : Elem) : Elem :=
  if i < tabsLen then { panel with hidden := !(i == selectedIndex) } else panel

/-- `tabs.ts` `updateTabStates`: one pass over every tab/panel pair. -/
def updateTabStates (s : TabsState) (selectedIndex : Nat) : TabsState :=
  { s with
    tabs := mapFrom (updateOneTab selectedIndex) 0 s.tabs,
    panels := mapFrom (updateOnePanel selectedIndex s.tabs.length) 0 s.panels }

/-- The announcement text of `tabs.ts` `announceTabChange`:
`this.tabs[index].textContent || Tab <index+1>` (JS `||`: empty string
falls back). -/
def tabText (s : TabsState) (index : Nat) : String :=
  let t := s.tabs.getD index default
  if t.textContent == "" then "Tab " ++ toString (index + 1) else t.textContent

/-- `tabs.ts` `announceTabChange`: announce only when requested, enabled,
and the index actually changed. -/
def announceTabChange (cfg : TabsConfig) (s : TabsState)
    (index previousIndex : Nat) (shouldAnnounce : Bool) : List Effect :=
  if shouldAnnounce && cfg.announceChanges && !(previousIndex == index) then
    [Effect.announce (tabText s index ++ " selected")]
  else []

/-- `tabs.ts` `notifyTabChange`: invoke `onChange` only on an actual index
change, with the new index and its tab element. -/
def notifyTabChange (s : TabsState) (index previousIndex : Nat) : List Effect :=
  if previousIndex == index then []
  else [Effect.onChange index (s.tabs.getD index default)]

/-- `tabs.ts` `selectTab(index, shouldAnnounce)`: validate, record the
previous index, update `currentIndex`, run the attribute pass, then the
announcement and the `onChange` notification, in that order. -/
def selectTab (cfg : TabsConfig) (s : TabsState) (index : Int)
    (shouldAnnounce : Bool) : TabsState × List Effect :=
  if !(isValidTabIndex s index) then
    (s, [Effect.consoleWarn (INVALID_TAB_INDEX ++ " " ++ toString index)])
  else
    let previousIndex := s.currentIndex
    let idx := index.toNat
    let s1 : TabsState := { s with currentIndex := idx }
    let s2 := updateTabStates s1 idx
    (s2, announceTabChange cfg s2 idx previousIndex shouldAnnounce ++
         notifyTabChange s2 idx previousIndex)

/-- `tabs.ts` `isOrientationMatch`. -/
def isOrientationMatch (key orientation : String) : Bool :=
  (key == "ArrowLeft" && orientation == "horizontal") ||
  (key == "ArrowUp" && orientation == "vertical") ||
  (key == "ArrowRight" && orientation == "horizontal") ||
  (key == "ArrowDown" && orientation == "vertical")

/-- The `switch` of `tabs.ts` `handleKeydown`: the target index when the
key is handled, `none` otherwise.  Arrow keys are actionable only when
matching the configured orientation; `Home` and `End` always. -/
def keydownTarget (cfg : TabsConfig) (s : TabsState) (key : String)
    (currentIndex : Nat) : Option Int :=
  if key == "ArrowLeft" || key == "ArrowUp" then
    if isOrientationMatch key cfg.orientation then
      some (getNextElement s.tabs (currentIndex : Int) (-1) (cfg.loop == "true"))
    else none
  else if key == "ArrowRight" || key == "ArrowDown" then
    if isOrientationMatch key cfg.orientation then
      some (getNextElement s.tabs (currentIndex : Int) 1 (cfg.loop == "true"))
    else none
  else if key == "Home" then some 0
  else if key == "End" then some ((s.tabs.length : Int) - 1)
  else none

/-- `tabs.ts` `handleKeydown`: when handled, suppress the default action,
move focus to the target tab, and additionally select it when activation
is `auto`. -/
def handleKeydown (cfg : TabsConfig) (s : TabsState) (key : String)
    (currentIndex : Nat) : TabsState × List Effect :=
  match keydownTarget cfg s key currentIndex with
  | none => (s, [])
  | some newIndex =>
    let base := [Effect.preventDefault, Effect.focus newIndex]
    if cfg.activation == "auto" then
      let r := selectTab cfg s newIndex true
      (r.1, base ++ r.2)
    else (s, base)

/-- `tabs.ts` `handleTabClick`: suppress default and select, regardless of
activation mode. -/
def handleTabClick (cfg : TabsConfig) (s : TabsState) (index : Nat) :
    TabsState × List Effect :=
  let r := selectTab cfg s (index : Int) true
  (r.1, Effect.preventDefault :: r.2)

/-- `tabs.ts` `validateElements`: fatal reports and the mismatch warning
(console effects only; `init` itself continues unconditionally). -/
def validateElements (tablist : Option TablistEl) (tabs panels : List Elem) :
    List Effect :=
  if tablist.isNone then [Effect.consoleError NO_TABLIST]
  else if tabs.length == 0 || panels.length == 0 then
    [Effect.consoleError NO_TABS_OR_PANELS]
  else if !(tabs.length == panels.length) then
    [Effect.consoleWarn MISMATCH_COUNT]
  else []

/-- `tabs.ts` `setTablistAttributes`: role only if falsy, orientation
always. -/
def setTablistAttributes (cfg : TabsConfig) (tl : TablistEl) : TablistEl :=
  let tl1 := if attrFalsy tl.role then { tl with role := some "tablist" } else tl
  { tl1 with ariaOrientation := some cfg.orientation }

/-- `tabs.ts` `applyOrientationStyling`: add the vertical styling class
when the orientation is vertical (`classList.add` is idempotent). -/
def applyOrientationStyling (cfg : TabsConfig) (tl : TablistEl) : TablistEl :=
  if cfg.orientation == "vertical" then
    if tl.classes.contains "vertical-tabs" then tl
    else { tl with classes := tl.classes ++ ["vertical-tabs"] }
  else tl

/-- `tabs.ts` `ensureElementIds`: keep an existing id, otherwise generate
one from the configured prefix and the index (`rndT`/`rndP` abstract the
random suffixes). -/
def ensureElementIds (idPref : String) (rndT rndP : String)
    (tab panel : Elem) (index : Nat) : Elem × Elem × String × String :=
  let tabId := if tab.id == "" then
    generateId (idPref ++ "-" ++ toString index) rndT else tab.id
  let panelId := if panel.id == "" then
    generateId (idPref ++ "-panel-" ++ toString index) rndP else panel.id
  ({ tab with id := tabId }, { panel with id := panelId }, tabId, panelId)

/-- `tabs.ts` `setStaticAriaAttributes`: roles and relations, all written
unconditionally. -/
def setStaticAriaAttributes (tab panel : Elem) (tabId panelId : String) :
    Elem × Elem :=
  ({ tab with role := some "tab", ariaControls := some panelId },
   { panel with role := some "tabpanel", ariaLabelledby := some tabId })

/-- `tabs.ts` `setIntelligentTabindex`: make the panel focusable only when
it has no focusable content. -/
def setIntelligentTabindex (panel : Elem) : Elem :=
  if panel.hasFocusableContent then panel else { panel with tabindex := some "0" }

/-- `tabs.ts` `setInitialDynamicAttributes`: tab unselected and out of the
tab order, panel hidden. -/
def setInitialDynamicAttributes (tab panel : Elem) : Elem × Elem :=
  ({ tab with ariaSelected := some "false", tabindex := some "-1" },
   { panel with hidden := true })

/-- `tabs.ts` `validateRequiredAttributes`: the four strict-mode checks, in
source order, as a fallible computation. -/
def validateRequiredAttributes (tab panel : Elem) : Except String Unit :=
  if attrFalsy tab.role then Except.error MISSING_TAB_ROLE
  else if attrFalsy panel.role then Except.error MISSING_PANEL_ROLE
  else if tab.id == "" then Except.error MISSING_TAB_ID
  else if panel.id == "" then Except.error MISSING_PANEL_ID
  else Except.ok ()

/-- One forgiving-mode iteration of `tabs.ts` `setupForgivingMode` for a
tab/panel pair at `index`. -/
def forgivingStep (idPref : String) (rndT rndP : String) (index : Nat)
    (tab panel : Elem) : Elem × Elem :=
  let r := ensureElementIds idPref rndT rndP tab panel index
  let st := setStaticAriaAttributes r.1 r.2.1 r.2.2.1 r.2.2.2
  let p1 := setIntelligentTabindex st.2
  let dyn := setInitialDynamicAttributes st.1 p1
  dyn

/-- `tabs.ts` `setupForgivingMode`: iterate the pairs in index order; a tab
with no panel at its index is skipped (`if (!panel) return`), and panels
beyond the tabs are never visited. -/
def setupForgivingGo (idPref : String) (rndT rndP : Nat → String) :
    Nat → List Elem → List Elem → List Elem × List Elem
  | _, [], ps => ([], ps)
  | _, t :: ts, [] => (t :: ts, [])
  | i, t :: ts, p :: ps =>
    let r := forgivingStep idPref (rndT i) (rndP i) i t p
    let rest := setupForgivingGo idPref rndT rndP (i + 1) ts ps
    (r.1 :: rest.1, r.2 :: rest.2)

/-- Result of the strict-mode pass: the (possibly partially mutated) lists
and the first validation error, if any.  A thrown error stops the
iteration; pairs already processed keep their dynamic initial state. -/
def setupStrictGo : List Elem → List Elem → List Elem × List Elem × Option String
  | [], ps => ([], ps, none)
  | t :: ts, [] => (t :: ts, [], none)
  | t :: ts, p :: ps =>
    match validateRequiredAttributes t p with
    | Except.error msg => (t :: ts, p :: ps, some msg)
    | Except.ok _ =>
      let dyn := setInitialDynamicAttributes t p
      let rest := setupStrictGo ts ps
      (dyn.1 :: rest.1, dyn.2 :: rest.2.1, rest.2.2)

/-- Result of `setupARIA`: the reconciled elements, plus the strict-mode
error at which construction threw, if any. -/
structure AriaResult where
  tablist : Option TablistEl
  tabs : List Elem
  panels : List Elem
  err : Option String
  deriving DecidableEq, Repr

/-- `tabs.ts` `setupARIA`: nothing happens without a tablist; otherwise
tablist attributes, orientation styling, then the strict or forgiving
pass. -/
def setupARIA (cfg : TabsConfig) (rndT rndP : Nat → String)
    (tablist : Option TablistEl) (tabs panels : List Elem) : AriaResult :=
  match tablist with
  | none => { tablist := none, tabs := tabs, panels := panels, err := none }
  | some tl =>
    let tl1 := applyOrientationStyling cfg (setTablistAttributes cfg tl)
    if cfg.strict then
      let r := setupStrictGo tabs panels
      { tablist := some tl1, tabs := r.1, panels := r.2.1, err := r.2.2 }
    else
      let r := setupForgivingGo cfg.idPref rndT rndP 0 tabs panels
      { tablist := some tl1, tabs := r.1, panels := r.2, err := none }

/-- `tabs.ts` `setupEvents`: a click and a keydown listener per tab, in
index order. -/
def setupEventsEffects : Nat → List Elem → List Effect
  | _, [] => []
  | i, _ :: ts =>
    Effect.addClickListener i :: Effect.addKeydownListener i ::
      setupEventsEffects (i + 1) ts

/-- `tabs.ts` `selectInitialTab`: `findIndex` of a tab already marked
selected (`-1` if none, replaced by `0`), then `selectTab(index, false)`. -/
def selectInitialTab (cfg : TabsConfig) (s : TabsState) :
    TabsState × List Effect :=
  let preselectedIndex :=
    findIndexJs (fun tab => tab.ariaSelected == some "true") s.tabs
  let initialIndex : Int := if 0 ≤ preselectedIndex then preselectedIndex else 0
  selectTab cfg s initialIndex false

/-- The outcome of running the `Tabs` constructor: either a normal return
or a propagated strict-mode exception.  Both carry the DOM state (which
persists across a throw) and the effects performed up to that point. -/
inductive InitOutcome where
  | ok (s : TabsState) (effs : List Effect)
  | threw (msg : String) (s : TabsState) (effs : List Effect)
  deriving DecidableEq, Repr

/-- `tabs.ts` `init` (run by the constructor): `findElements` (the
discovered elements are the inputs here), `validateElements` (console
effects only — `init` continues regardless), `setupARIA`, `setupEvents`,
`selectInitialTab`.  A strict-mode validation error aborts before events
and initial selection. -/
def initTabs (cfg : TabsConfig) (rndT rndP : Nat → String)
    (tablist : Option TablistEl) (tabs panels : List Elem) : InitOutcome :=
  let effs0 := validateElements tablist tabs panels
  let a := setupARIA cfg rndT rndP tablist tabs panels
  let s1 : TabsState :=
    { tablist := a.tablist, tabs := a.tabs, panels := a.panels, currentIndex := 0 }
  match a.err with
  | some msg => InitOutcome.threw msg s1 effs0
  | none =>
    let effs1 := effs0 ++ setupEventsEffects 0 s1.tabs
    let r := selectInitialTab cfg s1
    InitOutcome.ok r.1 (effs1 ++ r.2)

/-- The state carried by an `InitOutcome`. -/
def outState : InitOutcome → TabsState
  | InitOutcome.ok s _ => s
  | InitOutcome.threw _ s _ => s

/-- The effects carried by an `InitOutcome`. -/
def outEffs : InitOutcome → List Effect
  | InitOutcome.ok _ e => e
  | InitOutcome.threw _ _ e => e

/-- The propagated exception message of an `InitOutcome`, if any. -/
def outErr : InitOutcome → Option String
  | InitOutcome.ok _ _ => none
  | InitOutcome.threw m _ _ => some m

/-- `tabs.ts` `getSelectedIndex`. -/
def getSelectedIndex (s : TabsState) : Nat :=
  s.currentIndex

/-- The spec's notion of an actionable key (§4.4 / C5): an arrow key
matching the configured orientation, or `Home`, or `End`.  Stated from the
spec's words, to be compared with the source's `keydownTarget` dispatch. -/
def specActionableKey (key orientation : String) : Bool :=
  isOrientationMatch key orientation || key == "Home" || key == "End"

/-! ### Concrete fixtures used by witnesses and counterexamples -/

/-- A fully marked-up tab element fixture. -/
def mkTab (idStr text : String) : Elem :=
  { id := idStr, role := some "tab", ariaSelected := none, ariaControls := none,
    ariaLabelledby := none, tabindex := none, hidden := false,
    textContent := text, hasFocusableContent := false }

/-- A fully marked-up panel element fixture. -/
def mkPanel (idStr : String) : Elem :=
  { id := idStr, role := some "tabpanel", ariaSelected := none,
    ariaControls := none, ariaLabelledby := none, tabindex := none,
    hidden := false, textContent := "", hasFocusableContent := false }

/-- A bare tablist fixture. -/
def tl0 : TablistEl :=
  { role := none, ariaOrientation := none, classes := [] }

/-- The resolved default configuration of `tabs.ts` (forgiving, manual,
horizontal, looping, announcing). -/
def cfgDefault : TabsConfig :=
  { strict := false, activation := "manual", orientation := "horizontal",
    loop := "true", idPref := "tab", announceChanges := true }

/-- Default configuration with `activation = auto`. -/
def cfgAuto : TabsConfig :=
  { cfgDefault with activation := "auto" }

/-- Default configuration with `strict = true`. -/
def cfgStrict : TabsConfig :=
  { cfgDefault with strict := true }

/-- A constant random-suffix stream for fixtures. -/
def rnd0 : Nat → String := fun _ => "r"

/-- A two-tab, two-panel state fixture with tab 0 selected. -/
def s2x2 : TabsState :=
  { tablist := some tl0,
    tabs := [mkTab "t0" "Alpha", mkTab "t1" "Beta"],
    panels := [mkPanel "p0", mkPanel "p1"],
    currentIndex := 0 }

/-- A tab marked selected in the source markup. -/
def tabSel : Elem :=
  { mkTab "t1" "Beta" with ariaSelected := some "true" }

/-- Two tabs, the second one pre-selected in the markup. -/
def tabsPre : List Elem :=
  [mkTab "t0" "Alpha", tabSel]

/-- A single panel. -/
def panels1 : List Elem :=
  [mkPanel "p0"]

/-- A tab with a pre-existing foreign role attribute. -/
def tabRoleBtn : Elem :=
  { mkTab "t0" "Alpha" with role := some "button" }

/-- A tab missing its role marker (strict-mode violation). -/
def tabNoRole : Elem :=
  { mkTab "t1" "Beta" with role := none }

/-- Two tabs for the strict-mode counterexample: index 0 valid, index 1
missing its role. -/
def tabsStrictCE : List Elem :=
  [mkTab "t0" "Alpha", tabNoRole]

/-- The state constructed over two tabs and one panel (mismatch). -/
def sMismatch : TabsState :=
  outState (initTabs cfgDefault rnd0 rnd0 (some tl0) s2x2.tabs panels1)

/-! ## Theorems -/

theorem length_mapFrom {α : Type} (f : Nat → α → α) (i : Nat) (xs : List α) :
    (mapFrom f i xs).length = xs.length := by
  induction xs generalizing i with
  | nil => rfl
  | cons x xs ih => simp [mapFrom, ih]

theorem getD_mapFrom {α : Type} (f : Nat → α → α) (i j : Nat) (xs : List α)
    (d : α) (h : j < xs.length) :
    (mapFrom f i xs).getD j d = f (i + j) (xs.getD j d) := by
  induction xs generalizing i j with
  | nil => simp at h
  | cons x xs ih =>
    cases j with
    | zero => simp [mapFrom]
    | succ j =>
      simp only [mapFrom, List.getD_cons_succ]
      rw [ih (i + 1) j (by simpa using h)]
      congr 1
      omega

theorem mapFrom_idem {α : Type} (f : Nat → α → α)
    (hf : ∀ i x, f i (f i x) = f i x) (i : Nat) (xs : List α) :
    mapFrom f i (mapFrom f i xs) = mapFrom f i xs := by
  induction xs generalizing i with
  | nil => rfl
  | cons x xs ih => simp [mapFrom, hf, ih]

/-- C2: `getNextElement` computes `current + direction`, then with
`loop = true` a result below `0` becomes `n - 1` and a result `≥ n` becomes
`0`, and with `loop = false` the result is clamped to `[0, n-1]`; in
particular the wrap laws P3 and the clamp laws P4 hold for every `n ≥ 1`.
Determinism and absence of side effects are inherent in the embedding as a
pure function. -/
theorem getNextElement_wrap_clamp (n : Nat) (c d : Int) (hn : 1 ≤ n) :
    (nextIndex n c d true =
      (if c + d < 0 then (n : Int) - 1 else if (n : Int) ≤ c + d then 0 else c + d)) ∧
    (nextIndex n c d false = max 0 (min (c + d) ((n : Int) - 1))) ∧
    nextIndex n ((n : Int) - 1) 1 true = 0 ∧
    nextIndex n 0 (-1) true = (n : Int) - 1 ∧
    nextIndex n ((n : Int) - 1) 1 false = (n : Int) - 1 ∧
    nextIndex n 0 (-1) false = 0 := by
  have hn1 : (1 : Int) ≤ (n : Int) := by exact_mod_cast hn
  refine ⟨?_, ?_, ?_, ?_, ?_, ?_⟩
  all_goals simp only [nextIndex, getNextElement, List.length_replicate,
    if_true, Bool.false_eq_true, if_false, Int.max_def, Int.min_def]
  all_goals try split_ifs
  all_goals omega

/-- Witness for `getNextElement_wrap_clamp` at `n = 3`, `c = 1`, `d = 1`. -/
theorem getNextElement_wrap_clamp_witness :
    1 ≤ 3 ∧
    ((nextIndex 3 1 1 true =
      (if (1 : Int) + 1 < 0 then (3 : Int) - 1 else if (3 : Int) ≤ 1 + 1 then 0 else 1 + 1)) ∧
    (nextIndex 3 1 1 false = max 0 (min ((1 : Int) + 1) ((3 : Int) - 1))) ∧
    nextIndex 3 ((3 : Int) - 1) 1 true = 0 ∧
    nextIndex 3 0 (-1) true = (3 : Int) - 1 ∧
    nextIndex 3 ((3 : Int) - 1) 1 false = (3 : Int) - 1 ∧
    nextIndex 3 0 (-1) false = 0) :=
  ⟨by decide, getNextElement_wrap_clamp 3 1 1 (by decide)⟩

theorem isValidTabIndex_natCast (s : TabsState) (i : Nat) (hi : i < s.tabs.length) :
    isValidTabIndex s (i : Int) = true := by
  simp only [isValidTabIndex, Bool.and_eq_true, decide_eq_true_eq]
  exact ⟨by positivity, by exact_mod_cast hi⟩

theorem selectTab_valid_eq (cfg : TabsConfig) (s : TabsState) (i : Nat)
    (hi : i < s.tabs.length) :
    selectTab cfg s (i : Int) true =
      (updateTabStates { s with currentIndex := i } i,
       announceTabChange cfg (updateTabStates { s with currentIndex := i } i)
         i s.currentIndex true ++
       notifyTabChange (updateTabStates { s with currentIndex := i } i)
         i s.currentIndex) := by
  unfold selectTab
  rw [if_neg (by simp [isValidTabIndex_natCast s i hi])]
  simp

/-- C1: for a state with equally many (and at least one) tabs and panels
and any valid index `i`, after `selectTab(i)` the attribute pass has
rewritten every pair: tab `j` carries `aria-selected="true"` and
`tabindex="0"` exactly when `j = i` (`"false"`/`"-1"` otherwise), and
panel `j` is non-hidden exactly when `j = i` — so exactly one tab is
selected and exactly one panel visible, the `i`-th pair. -/
theorem selectTab_exclusivity (cfg : TabsConfig) (s : TabsState) (i : Nat)
    (hlen : s.tabs.length = s.panels.length) (hpos : 0 < s.tabs.length)
    (hi : i < s.tabs.length) (j : Nat) (hj : j < s.tabs.length) :
    (((selectTab cfg s (i : Int) true).1.tabs.getD j default).ariaSelected =
       some (if j = i then "true" else "false")) ∧
    (((selectTab cfg s (i : Int) true).1.tabs.getD j default).tabindex =
       some (if j = i then "0" else "-1")) ∧
    (((selectTab cfg s (i : Int) true).1.panels.getD j default).hidden =
       !(j == i)) := by
  rw [selectTab_valid_eq cfg s i hi]
  simp only [updateTabStates]
  rw [getD_mapFrom _ 0 j s.tabs default hj,
      getD_mapFrom _ 0 j s.panels default (by omega)]
  simp only [Nat.zero_add, updateOneTab, updateOnePanel, if_pos hj]
  by_cases hji : j = i <;> simp [hji]

/-- Witness for `selectTab_exclusivity` on `s2x2` with `i = 1`, `j = 0`. -/
theorem selectTab_exclusivity_witness :
    (s2x2.tabs.length = s2x2.panels.length ∧ 0 < s2x2.tabs.length ∧
      1 < s2x2.tabs.length ∧ 0 < s2x2.tabs.length) ∧
    ((((selectTab cfgDefault s2x2 (1 : Nat) true).1.tabs.getD 0 default).ariaSelected =
       some (if 0 = 1 then "true" else "false")) ∧
     (((selectTab cfgDefault s2x2 (1 : Nat) true).1.tabs.getD 0 default).tabindex =
       some (if 0 = 1 then "0" else "-1")) ∧
     (((selectTab cfgDefault s2x2 (1 : Nat) true).1.panels.getD 0 default).hidden =
       !(0 == 1))) :=
  ⟨⟨by decide, by decide, by decide, by decide⟩,
   selectTab_exclusivity cfgDefault s2x2 1 (by decide) (by decide) (by decide)
     0 (by decide)⟩

theorem updateOneTab_idem (k i : Nat) (x : Elem) :
    updateOneTab k i (updateOneTab k i x) = updateOneTab k i x := rfl

theorem updateOnePanel_idem (k L i : Nat) (p : Elem) :
    updateOnePanel k L i (updateOnePanel k L i p) = updateOnePanel k L i p := by
  unfold updateOnePanel
  by_cases h : i < L <;> simp [h]

theorem updateTabStates_tabs_length (s : TabsState) (k : Nat) :
    (updateTabStates s k).tabs.length = s.tabs.length := by
  simp [updateTabStates, length_mapFrom]

theorem updateTabStates_panels_length (s : TabsState) (k : Nat) :
    (updateTabStates s k).panels.length = s.panels.length := by
  simp [updateTabStates, length_mapFrom]

theorem updateTabStates_currentIndex (s : TabsState) (k : Nat) :
    (updateTabStates s k).currentIndex = s.currentIndex := by
  simp [updateTabStates]

theorem updateTabStates_idem (s : TabsState) (k : Nat) :
    updateTabStates (updateTabStates s k) k = updateTabStates s k := by
  unfold updateTabStates
  simp only [length_mapFrom]
  rw [mapFrom_idem (updateOneTab k) (fun i x => updateOneTab_idem k i x),
      mapFrom_idem (updateOnePanel k s.tabs.length)
        (fun i p => updateOnePanel_idem k s.tabs.length i p)]

theorem set_currentIndex_self (s : TabsState) (k : Nat) (h : s.currentIndex = k) :
    { s with currentIndex := k } = s := by
  cases s
  simp_all

/-- C6: `selectTab(i)` at a valid index is idempotent — the second of two
consecutive calls leaves the state exactly as after the first and fires no
effect at all (neither announcement nor `onChange`); a call that does not
change the index fires no effect either; and when the index does change,
the effects are the announcement (when enabled) followed by `onChange`,
both built from the new index `i` and its tab element. -/
theorem selectTab_idempotent_effect_order (cfg : TabsConfig) (s : TabsState)
    (i : Nat) (hi : i < s.tabs.length) :
    ((selectTab cfg (selectTab cfg s (i : Int) true).1 (i : Int) true).1 =
      (selectTab cfg s (i : Int) true).1) ∧
    ((selectTab cfg (selectTab cfg s (i : Int) true).1 (i : Int) true).2 = []) ∧
    (s.currentIndex = i → (selectTab cfg s (i : Int) true).2 = []) ∧
    (s.currentIndex ≠ i →
      (selectTab cfg s (i : Int) true).2 =
        (if cfg.announceChanges then
          [Effect.announce (tabText (selectTab cfg s (i : Int) true).1 i ++ " selected")]
         else []) ++
        [Effect.onChange i ((selectTab cfg s (i : Int) true).1.tabs.getD i default)]) := by
  have h1 := selectTab_valid_eq cfg s i hi
  set s1 := updateTabStates { s with currentIndex := i } i with hs1
  have hlen1 : s1.tabs.length = s.tabs.length := by
    rw [hs1, updateTabStates_tabs_length]
  have hcur1 : s1.currentIndex = i := by
    rw [hs1, updateTabStates_currentIndex]
  have h2 := selectTab_valid_eq cfg s1 i (by omega)
  have hset : { s1 with currentIndex := i } = s1 := set_currentIndex_self s1 i hcur1
  have hupd2 : updateTabStates { s1 with currentIndex := i } i = s1 := by
    rw [hset, hs1, updateTabStates_idem]
  refine ⟨?_, ?_, ?_, ?_⟩
  · rw [h1]
    simp only
    rw [h2, hupd2]
  · rw [h1]
    simp only
    rw [h2, hupd2]
    simp [announceTabChange, notifyTabChange, hcur1]
  · intro hcur
    rw [h1]
    simp [announceTabChange, notifyTabChange, hcur]
  · intro hcur
    rw [h1]
    simp only
    simp [announceTabChange, notifyTabChange, hcur]

/-- Witness for `selectTab_idempotent_effect_order` on `s2x2` with `i = 1`. -/
theorem selectTab_idempotent_effect_order_witness :
    (1 < s2x2.tabs.length) ∧
    (((selectTab cfgDefault (selectTab cfgDefault s2x2 (1 : Nat) true).1 (1 : Nat) true).1 =
        (selectTab cfgDefault s2x2 (1 : Nat) true).1) ∧
     ((selectTab cfgDefault (selectTab cfgDefault s2x2 (1 : Nat) true).1 (1 : Nat) true).2 = []) ∧
     (s2x2.currentIndex = 1 → (selectTab cfgDefault s2x2 (1 : Nat) true).2 = []) ∧
     (s2x2.currentIndex ≠ 1 →
       (selectTab cfgDefault s2x2 (1 : Nat) true).2 =
         (if cfgDefault.announceChanges then
           [Effect.announce (tabText (selectTab cfgDefault s2x2 (1 : Nat) true).1 1 ++ " selected")]
          else []) ++
         [Effect.onChange 1 ((selectTab cfgDefault s2x2 (1 : Nat) true).1.tabs.getD 1 default)])) :=
  ⟨by decide, selectTab_idempotent_effect_order cfgDefault s2x2 1 (by decide)⟩

/-- C5: a key is handled by `handleKeydown` exactly when it is actionable
in the spec's sense (arrow key matching the configured orientation, or
Home, or End); every actionable key suppresses the default action and
moves focus to the computed target tab, and invokes `selectTab` on the
target index if and only if activation is `auto` — in manual mode the
state (hence `getSelectedIndex`) is unchanged. -/
theorem handleKeydown_actionable (cfg : TabsConfig) (s : TabsState)
    (key : String) (cur : Nat) :
    ((keydownTarget cfg s key cur).isSome = specActionableKey key cfg.orientation) ∧
    (∀ t : Int, keydownTarget cfg s key cur = some t →
      handleKeydown cfg s key cur =
        (if cfg.activation == "auto" then
          ((selectTab cfg s t true).1,
           [Effect.preventDefault, Effect.focus t] ++ (selectTab cfg s t true).2)
         else (s, [Effect.preventDefault, Effect.focus t]))) := by
  constructor
  · unfold keydownTarget specActionableKey
    split_ifs with h1 h2 h3 h4 h5 h6 <;> simp_all [isOrientationMatch] <;>
      first
        | (rcases h1 with h | h <;> subst h <;> exact ⟨by decide, by decide⟩)
        | (rcases h3 with h | h <;> subst h <;> exact ⟨by decide, by decide⟩)
  · intro t ht
    simp only [handleKeydown, ht]

/-- Witness for `handleKeydown_actionable`: `ArrowRight` on tab 0 of
`s2x2` with `activation = auto` targets tab 1. -/
theorem handleKeydown_actionable_witness :
    keydownTarget cfgAuto s2x2 "ArrowRight" 0 = some 1 ∧
    handleKeydown cfgAuto s2x2 "ArrowRight" 0 =
      (if cfgAuto.activation == "auto" then
        ((selectTab cfgAuto s2x2 (1 : Int) true).1,
         [Effect.preventDefault, Effect.focus 1] ++ (selectTab cfgAuto s2x2 (1 : Int) true).2)
       else (s2x2, [Effect.preventDefault, Effect.focus 1])) :=
  ⟨by decide, (handleKeydown_actionable cfgAuto s2x2 "ArrowRight" 0).2 1 (by decide)⟩

theorem setupForgivingGo_lengths (pre : String) (rndT rndP : Nat → String) :
    ∀ (i : Nat) (ts ps : List Elem),
      (setupForgivingGo pre rndT rndP i ts ps).1.length = ts.length ∧
      (setupForgivingGo pre rndT rndP i ts ps).2.length = ps.length := by
  intro i ts
  induction ts generalizing i with
  | nil => intro ps; simp [setupForgivingGo]
  | cons t ts ih =>
    intro ps
    cases ps with
    | nil => simp [setupForgivingGo]
    | cons p ps =>
      have h := ih (i + 1) ps
      simp [setupForgivingGo, h.1, h.2]

theorem setupStrictGo_lengths :
    ∀ ts ps : List Elem,
      (setupStrictGo ts ps).1.length = ts.length ∧
      (setupStrictGo ts ps).2.1.length = ps.length := by
  intro ts
  induction ts with
  | nil => intro ps; simp [setupStrictGo]
  | cons t ts ih =>
    intro ps
    cases ps with
    | nil => simp [setupStrictGo]
    | cons p ps =>
      unfold setupStrictGo
      cases h : validateRequiredAttributes t p with
      | error msg => simp
      | ok u =>
        have hr := ih ps
        simp [hr.1, hr.2]

theorem setupARIA_lengths (cfg : TabsConfig) (rndT rndP : Nat → String)
    (tablist : Option TablistEl) (tabs panels : List Elem) :
    (setupARIA cfg rndT rndP tablist tabs panels).tabs.length = tabs.length ∧
    (setupARIA cfg rndT rndP tablist tabs panels).panels.length = panels.length := by
  cases tablist with
  | none => simp [setupARIA]
  | some tl =>
    unfold setupARIA
    by_cases h : cfg.strict <;>
      simp [h, (setupStrictGo_lengths tabs panels).1,
        (setupStrictGo_lengths tabs panels).2,
        (setupForgivingGo_lengths cfg.idPref rndT rndP 0 tabs panels).1,
        (setupForgivingGo_lengths cfg.idPref rndT rndP 0 tabs panels).2]

theorem validateElements_mem (tl : Option TablistEl) (ts ps : List Elem)
    (e : Effect) (he : e ∈ validateElements tl ts ps) :
    (∃ m, e = Effect.consoleError m) ∨ (∃ m, e = Effect.consoleWarn m) := by
  unfold validateElements at he
  split_ifs at he
  · exact Or.inl ⟨_, by simpa using he⟩
  · exact Or.inl ⟨_, by simpa using he⟩
  · exact Or.inr ⟨_, by simpa using he⟩
  · simp at he

theorem setupEventsEffects_mem :
    ∀ (i : Nat) (ts : List Elem) (e : Effect), e ∈ setupEventsEffects i ts →
      (∃ k, e = Effect.addClickListener k) ∨ (∃ k, e = Effect.addKeydownListener k) := by
  intro i ts
  induction ts generalizing i with
  | nil => intro e he; simp [setupEventsEffects] at he
  | cons t ts ih =>
    intro e he
    simp only [setupEventsEffects, List.mem_cons] at he
    rcases he with h | h | h
    · exact Or.inl ⟨i, h⟩
    · exact Or.inr ⟨i, h⟩
    · exact ih (i + 1) e h

theorem selectTab_effects_mem (cfg : TabsConfig) (s : TabsState) (idx : Int)
    (b : Bool) (e : Effect) (he : e ∈ (selectTab cfg s idx b).2) :
    (∃ m, e = Effect.consoleWarn m) ∨
    (b = true ∧ ∃ m, e = Effect.announce m) ∨
    (∃ k t, e = Effect.onChange k t) := by
  unfold selectTab at he
  split_ifs at he
  · exact Or.inl ⟨_, by simpa using he⟩
  · simp only [List.mem_append] at he
    rcases he with h | h
    · unfold announceTabChange at h
      split_ifs at h with hc
      · simp only [Bool.and_eq_true] at hc
        exact Or.inr (Or.inl ⟨hc.1.1, _, by simpa using h⟩)
      · simp at h
    · unfold notifyTabChange at h
      split_ifs at h
      · simp at h
      · exact Or.inr (Or.inr ⟨_, _, by simpa using h⟩)

theorem findIndexAux_cases {α : Type} (p : α → Bool) (d : α) :
    ∀ (l : List α) (i : Nat),
      findIndexAux p l i = -1 ∨
      ∃ k : Nat, findIndexAux p l i = ((i + k : Nat) : Int) ∧ k < l.length ∧
        p (l.getD k d) = true := by
  intro l
  induction l with
  | nil => intro i; exact Or.inl rfl
  | cons x xs ih =>
    intro i
    by_cases h : p x = true
    · exact Or.inr ⟨0, by simp [findIndexAux, h], by simp, by simpa using h⟩
    · rcases ih (i + 1) with hneg | ⟨k, hk, hlt, hp⟩
      · exact Or.inl (by simp [findIndexAux, h, hneg])
      · refine Or.inr ⟨k + 1, ?_, by simpa using hlt, by simpa using hp⟩
        simp only [findIndexAux, h, if_false, Bool.false_eq_true]
        rw [hk]
        congr 1
        omega

theorem findIndexAux_all_false {α : Type} (p : α → Bool) :
    ∀ (l : List α) (i : Nat), (∀ x ∈ l, p x = false) →
      findIndexAux p l i = -1 := by
  intro l
  induction l with
  | nil => intro i h; rfl
  | cons x xs ih =>
    intro i h
    have hx : p x = false := h x (List.mem_cons_self x xs)
    simp only [findIndexAux, hx, Bool.false_eq_true, if_false]
    exact ih (i + 1) (fun y hy => h y (List.mem_cons_of_mem x hy))

theorem setIntelligentTabindex_proj (p : Elem) :
    (setIntelligentTabindex p).role = p.role ∧
    (setIntelligentTabindex p).id = p.id ∧
    (setIntelligentTabindex p).ariaLabelledby = p.ariaLabelledby ∧
    (setIntelligentTabindex p).hidden = p.hidden := by
  unfold setIntelligentTabindex
  split <;> exact ⟨rfl, rfl, rfl, rfl⟩

theorem forgivingStep_components (pre a b : String) (i : Nat) (t p : Elem) :
    ((forgivingStep pre a b i t p).1.role = some "tab") ∧
    ((forgivingStep pre a b i t p).2.role = some "tabpanel") ∧
    ((forgivingStep pre a b i t p).1.ariaControls =
       some (forgivingStep pre a b i t p).2.id) ∧
    ((forgivingStep pre a b i t p).2.ariaLabelledby =
       some (forgivingStep pre a b i t p).1.id) ∧
    ((forgivingStep pre a b i t p).1.ariaSelected = some "false") ∧
    ((forgivingStep pre a b i t p).2.hidden = true) := by
  refine ⟨?_, ?_, ?_, ?_, ?_, ?_⟩
  all_goals simp only [forgivingStep, ensureElementIds, setStaticAriaAttributes,
    setInitialDynamicAttributes, setIntelligentTabindex]
  all_goals try split_ifs
  all_goals rfl

theorem setupForgivingGo_getD (pre : String) (rndT rndP : Nat → String) :
    ∀ (i : Nat) (ts ps : List Elem) (j : Nat), j < ts.length → j < ps.length →
      (setupForgivingGo pre rndT rndP i ts ps).1.getD j default =
        (forgivingStep pre (rndT (i + j)) (rndP (i + j)) (i + j)
          (ts.getD j default) (ps.getD j default)).1 ∧
      (setupForgivingGo pre rndT rndP i ts ps).2.getD j default =
        (forgivingStep pre (rndT (i + j)) (rndP (i + j)) (i + j)
          (ts.getD j default) (ps.getD j default)).2 := by
  intro i ts
  induction ts generalizing i with
  | nil => intro ps j hjt; simp at hjt
  | cons t ts ih =>
    intro ps j hjt hjp
    cases ps with
    | nil => simp at hjp
    | cons p ps =>
      cases j with
      | zero => simp [setupForgivingGo]
      | succ j =>
        have h := ih (i + 1) ps j (by simpa using hjt) (by simpa using hjp)
        have hidx : i + 1 + j = i + (j + 1) := by omega
        simp only [setupForgivingGo, List.getD_cons_succ]
        rw [h.1, h.2, hidx]
        exact ⟨rfl, rfl⟩

theorem setupForgivingGo_unpaired_tab (pre : String) (rndT rndP : Nat → String) :
    ∀ (i : Nat) (ts ps : List Elem) (j : Nat), ps.length ≤ j →
      (setupForgivingGo pre rndT rndP i ts ps).1.getD j default =
        ts.getD j default := by
  intro i ts
  induction ts generalizing i with
  | nil => intro ps j hj; simp [setupForgivingGo]
  | cons t ts ih =>
    intro ps j hj
    cases ps with
    | nil => simp [setupForgivingGo]
    | cons p ps =>
      cases j with
      | zero => simp at hj
      | succ j =>
        simp only [setupForgivingGo, List.getD_cons_succ]
        exact ih (i + 1) ps j (by simpa using hj)

theorem setupStrictGo_ok_getD :
    ∀ ts ps : List Elem, (setupStrictGo ts ps).2.2 = none →
      ∀ j : Nat, j < ts.length → j < ps.length →
        (setupStrictGo ts ps).1.getD j default =
          (setInitialDynamicAttributes (ts.getD j default) (ps.getD j default)).1 ∧
        (setupStrictGo ts ps).2.1.getD j default =
          (setInitialDynamicAttributes (ts.getD j default) (ps.getD j default)).2 := by
  intro ts
  induction ts with
  | nil => intro ps hok j hjt; simp at hjt
  | cons t ts ih =>
    intro ps hok j hjt hjp
    cases ps with
    | nil => simp at hjp
    | cons p ps =>
      unfold setupStrictGo at hok ⊢
      cases h : validateRequiredAttributes t p with
      | error msg => rw [h] at hok; simp at hok
      | ok u =>
        rw [h] at hok
        simp only at hok
        cases j with
        | zero => simp
        | succ j =>
          have := ih ps hok j (by simpa using hjt) (by simpa using hjp)
          simp only [List.getD_cons_succ]
          exact this

theorem setupStrictGo_error_spec :
    ∀ (ts ps : List Elem) (k : Nat) (msg : String), k < ts.length → k < ps.length →
      (∀ j, j < k → validateRequiredAttributes (ts.getD j default)
        (ps.getD j default) = Except.ok ()) →
      validateRequiredAttributes (ts.getD k default) (ps.getD k default) =
        Except.error msg →
      (setupStrictGo ts ps).2.2 = some msg ∧
      (∀ j, j < k →
        (setupStrictGo ts ps).1.getD j default =
          (setInitialDynamicAttributes (ts.getD j default) (ps.getD j default)).1 ∧
        (setupStrictGo ts ps).2.1.getD j default =
          (setInitialDynamicAttributes (ts.getD j default) (ps.getD j default)).2) ∧
      (∀ j, k ≤ j →
        (setupStrictGo ts ps).1.getD j default = ts.getD j default ∧
        (setupStrictGo ts ps).2.1.getD j default = ps.getD j default) := by
  intro ts
  induction ts with
  | nil => intro ps k msg hkt; simp at hkt
  | cons t ts ih =>
    intro ps k msg hkt hkp hok herr
    cases ps with
    | nil => simp at hkp
    | cons p ps =>
      cases k with
      | zero =>
        simp only [List.getD_cons_zero] at herr
        unfold setupStrictGo
        rw [herr]
        exact ⟨rfl, fun j hj => absurd hj (by omega), fun j hj => ⟨rfl, rfl⟩⟩
      | succ k =>
        have h0 := hok 0 (Nat.succ_pos k)
        simp only [List.getD_cons_zero] at h0
        have hrest := ih ps k msg (by simpa using hkt) (by simpa using hkp)
          (fun j hj => by
            have := hok (j + 1) (by omega)
            simpa using this)
          (by simpa using herr)
        unfold setupStrictGo
        rw [h0]
        refine ⟨hrest.1, ?_, ?_⟩
        · intro j hj
          cases j with
          | zero => exact ⟨rfl, rfl⟩
          | succ j =>
            simp only [List.getD_cons_succ]
            exact hrest.2.1 j (by omega)
        · intro j hj
          cases j with
          | zero => omega
          | succ j =>
            simp only [List.getD_cons_succ]
            exact hrest.2.2 j (by omega)

theorem selectTab_preserves_static (cfg : TabsConfig) (s : TabsState)
    (idx : Int) (b : Bool) (j : Nat) :
    ((selectTab cfg s idx b).1.tablist = s.tablist) ∧
    ((selectTab cfg s idx b).1.tabs.length = s.tabs.length) ∧
    ((selectTab cfg s idx b).1.panels.length = s.panels.length) ∧
    (((selectTab cfg s idx b).1.tabs.getD j default).role =
      (s.tabs.getD j default).role) ∧
    (((selectTab cfg s idx b).1.tabs.getD j default).id =
      (s.tabs.getD j default).id) ∧
    (((selectTab cfg s idx b).1.tabs.getD j default).ariaControls =
      (s.tabs.getD j default).ariaControls) ∧
    (((selectTab cfg s idx b).1.panels.getD j default).role =
      (s.panels.getD j default).role) ∧
    (((selectTab cfg s idx b).1.panels.getD j default).id =
      (s.panels.getD j default).id) ∧
    (((selectTab cfg s idx b).1.panels.getD j default).ariaLabelledby =
      (s.panels.getD j default).ariaLabelledby) := by
  unfold selectTab
  split_ifs with h
  · exact ⟨rfl, rfl, rfl, rfl, rfl, rfl, rfl, rfl, rfl⟩
  · simp only [updateTabStates]
    refine ⟨by simp [length_mapFrom], by simp [length_mapFrom],
      by simp [length_mapFrom], ?_, ?_, ?_, ?_, ?_, ?_⟩
    · by_cases hj : j < s.tabs.length
      · rw [getD_mapFrom _ 0 j s.tabs default hj]; rfl
      · rw [List.getD_eq_default _ _ (by simp [length_mapFrom]; omega),
            List.getD_eq_default _ _ (by omega)]
    · by_cases hj : j < s.tabs.length
      · rw [getD_mapFrom _ 0 j s.tabs default hj]; rfl
      · rw [List.getD_eq_default _ _ (by simp [length_mapFrom]; omega),
            List.getD_eq_default _ _ (by omega)]
    · by_cases hj : j < s.tabs.length
      · rw [getD_mapFrom _ 0 j s.tabs default hj]; rfl
      · rw [List.getD_eq_default _ _ (by simp [length_mapFrom]; omega),
            List.getD_eq_default _ _ (by omega)]
    · by_cases hj : j < s.panels.length
      · rw [getD_mapFrom _ 0 j s.panels default hj]
        simp only [Nat.zero_add, updateOnePanel]
        split <;> rfl
      · rw [List.getD_eq_default _ _ (by simp [length_mapFrom]; omega),
            List.getD_eq_default _ _ (by omega)]
    · by_cases hj : j < s.panels.length
      · rw [getD_mapFrom _ 0 j s.panels default hj]
        simp only [Nat.zero_add, updateOnePanel]
        split <;> rfl
      · rw [List.getD_eq_default _ _ (by simp [length_mapFrom]; omega),
            List.getD_eq_default _ _ (by omega)]
    · by_cases hj : j < s.panels.length
      · rw [getD_mapFrom _ 0 j s.panels default hj]
        simp only [Nat.zero_add, updateOnePanel]
        split <;> rfl
      · rw [List.getD_eq_default _ _ (by simp [length_mapFrom]; omega),
            List.getD_eq_default _ _ (by omega)]

theorem setupARIA_paired_unselected (cfg : TabsConfig) (rndT rndP : Nat → String)
    (tl : TablistEl) (tabs panels : List Elem)
    (herr : (setupARIA cfg rndT rndP (some tl) tabs panels).err = none)
    (j : Nat) (hjt : j < tabs.length) (hjp : j < panels.length) :
    ((setupARIA cfg rndT rndP (some tl) tabs panels).tabs.getD j
      default).ariaSelected = some "false" := by
  unfold setupARIA at herr ⊢
  by_cases hs : cfg.strict = true
  · simp only [hs, if_true] at herr ⊢
    have := setupStrictGo_ok_getD tabs panels herr j hjt hjp
    simp only at this ⊢
    rw [this.1]
    rfl
  · simp only [hs, if_false, Bool.false_eq_true] at herr ⊢
    have := (setupForgivingGo_getD cfg.idPref rndT rndP 0 tabs panels j hjt hjp).1
    simp only at this ⊢
    rw [this]
    exact (forgivingStep_components _ _ _ _ _ _).2.2.2.2.1

theorem initTabs_no_announce (cfg : TabsConfig) (rndT rndP : Nat → String)
    (tablist : Option TablistEl) (tabs panels : List Elem) (m : String) :
    Effect.announce m ∉ outEffs (initTabs cfg rndT rndP tablist tabs panels) := by
  unfold initTabs
  cases ha : (setupARIA cfg rndT rndP tablist tabs panels).err with
  | some msg =>
    simp only [ha, outEffs]
    intro hmem
    rcases validateElements_mem _ _ _ _ hmem with ⟨m2, hm⟩ | ⟨m2, hm⟩ <;> simp at hm
  | none =>
    simp only [ha, outEffs]
    intro hmem
    simp only [List.mem_append] at hmem
    rcases hmem with (hmem | hmem) | hmem
    · rcases validateElements_mem _ _ _ _ hmem with ⟨m2, hm⟩ | ⟨m2, hm⟩ <;> simp at hm
    · rcases setupEventsEffects_mem _ _ _ hmem with ⟨k, hk⟩ | ⟨k, hk⟩ <;> simp at hk
    · unfold selectInitialTab at hmem
      rcases selectTab_effects_mem _ _ _ _ _ hmem with ⟨m2, hm⟩ | ⟨hb, _⟩ | ⟨k, t, hm⟩
      · simp at hm
      · simp at hb
      · simp at hm

theorem setupStrictGo_err_none_of_empty (tabs panels : List Elem)
    (h : tabs = [] ∨ panels = []) : (setupStrictGo tabs panels).2.2 = none := by
  rcases h with h | h <;> subst h
  · rfl
  · cases tabs <;> rfl

theorem setupARIA_err_none_of_empty (cfg : TabsConfig) (rndT rndP : Nat → String)
    (tablist : Option TablistEl) (tabs panels : List Elem)
    (h : tabs = [] ∨ panels = []) :
    (setupARIA cfg rndT rndP tablist tabs panels).err = none := by
  cases tablist with
  | none => rfl
  | some tl =>
    unfold setupARIA
    by_cases hs : cfg.strict = true <;>
      simp [hs, setupStrictGo_err_none_of_empty tabs panels h]

theorem setupARIA_nil_tabs (cfg : TabsConfig) (rndT rndP : Nat → String)
    (tablist : Option TablistEl) (panels : List Elem) :
    (setupARIA cfg rndT rndP tablist [] panels).tabs = [] ∧
    (setupARIA cfg rndT rndP tablist [] panels).err = none := by
  cases tablist with
  | none => exact ⟨rfl, rfl⟩
  | some tl =>
    unfold setupARIA
    by_cases hs : cfg.strict = true <;> simp [hs, setupStrictGo, setupForgivingGo]

/-- C3 counterexample: constructing over a container with no tablist but
two discovered tabs and panels is not inert — click listeners are still
attached, the initial selection pass still rewrites tab attributes
(tab 0 becomes `aria-selected="true"` although the markup had none), and a
later `selectTab(1)` still mutates the state rather than returning early. -/
theorem initTabs_missing_tablist_not_inert :
    Effect.addClickListener 0 ∈
      outEffs (initTabs cfgDefault rnd0 rnd0 none s2x2.tabs s2x2.panels) ∧
    ((outState (initTabs cfgDefault rnd0 rnd0 none s2x2.tabs
      s2x2.panels)).tabs.getD 0 default).ariaSelected = some "true" ∧
    (s2x2.tabs.getD 0 default).ariaSelected = none ∧
    (selectTab cfgDefault
        (outState (initTabs cfgDefault rnd0 rnd0 none s2x2.tabs s2x2.panels))
        (1 : Int) true).1 ≠
      outState (initTabs cfgDefault rnd0 rnd0 none s2x2.tabs s2x2.panels) := by
  decide

/-- C3 (amended): for a construction whose container lacks a tablist, or
has zero tabs, or zero panels, the constructor reports the corresponding
error; a `selectTab` call is a no-op returning early (only a warning, no
mutation) exactly when the discovered tabs list is empty, and in that case
no listeners are attached either.  (Inertness does not extend to the
missing-tablist case with discovered tabs: see the counterexample.) -/
theorem initTabs_error_report_and_empty_tabs_inert
    (cfg : TabsConfig) (rndT rndP : Nat → String) (tablist : Option TablistEl)
    (tabs panels : List Elem) :
    (tablist = none →
      Effect.consoleError NO_TABLIST ∈
        outEffs (initTabs cfg rndT rndP tablist tabs panels)) ∧
    (tablist ≠ none → tabs = [] ∨ panels = [] →
      Effect.consoleError NO_TABS_OR_PANELS ∈
        outEffs (initTabs cfg rndT rndP tablist tabs panels)) ∧
    (∀ s : TabsState, s.tabs = [] → ∀ (idx : Int) (b : Bool),
      selectTab cfg s idx b =
        (s, [Effect.consoleWarn (INVALID_TAB_INDEX ++ " " ++ toString idx)])) ∧
    (tabs = [] → ∀ k : Nat,
      Effect.addClickListener k ∉
        outEffs (initTabs cfg rndT rndP tablist tabs panels) ∧
      Effect.addKeydownListener k ∉
        outEffs (initTabs cfg rndT rndP tablist tabs panels)) := by
  refine ⟨?_, ?_, ?_, ?_⟩
  · rintro rfl
    unfold initTabs setupARIA
    simp [outEffs, validateElements]
  · intro hne hempty
    obtain ⟨tl, rfl⟩ : ∃ tl, tablist = some tl := by
      cases tablist with
      | none => exact absurd rfl hne
      | some tl => exact ⟨tl, rfl⟩
    have herr := setupARIA_err_none_of_empty cfg rndT rndP (some tl) tabs panels hempty
    unfold initTabs
    simp only [herr, outEffs, List.mem_append]
    left; left
    rcases hempty with h | h <;> subst h <;> simp [validateElements]
  · intro s hs idx b
    have hv : isValidTabIndex s idx = false := by
      simp only [isValidTabIndex, hs, List.length_nil, Nat.cast_zero,
        Bool.and_eq_false_iff]
      by_cases h0 : (0 : Int) ≤ idx
      · right; simpa using by omega
      · left; simpa using h0
    unfold selectTab
    rw [hv]
    simp
  · rintro rfl k
    have ha := setupARIA_nil_tabs cfg rndT rndP tablist panels
    constructor <;>
      · intro hmem
        unfold initTabs at hmem
        simp only [ha.2, outEffs, List.mem_append] at hmem
        rcases hmem with (hmem | hmem) | hmem
        · rcases validateElements_mem _ _ _ _ hmem with ⟨m2, hm⟩ | ⟨m2, hm⟩ <;>
            simp at hm
        · simp only [ha.1] at hmem
          simp [setupEventsEffects] at hmem
        · unfold selectInitialTab at hmem
          rcases selectTab_effects_mem _ _ _ _ _ hmem with ⟨m2, hm⟩ | ⟨hb, _⟩ |
            ⟨k2, t2, hm⟩
          · simp at hm
          · simp at hb
          · simp at hm

/-- Witness for `initTabs_error_report_and_empty_tabs_inert`: zero tabs
with a tablist present. -/
theorem initTabs_error_report_witness :
    (some tl0 ≠ none ∧ ([] : List Elem) = [] ∨ panels1 = []) ∧
    Effect.consoleError NO_TABS_OR_PANELS ∈
      outEffs (initTabs cfgDefault rnd0 rnd0 (some tl0) [] panels1) :=
  ⟨Or.inl ⟨by decide, rfl⟩,
   (initTabs_error_report_and_empty_tabs_inert cfgDefault rnd0 rnd0 (some tl0)
     [] panels1).2.1 (by decide) (Or.inl rfl)⟩

theorem setupForgivingGo_all_unselected (pre : String) (rndT rndP : Nat → String) :
    ∀ (i : Nat) (ts ps : List Elem), ts.length ≤ ps.length →
      ∀ t2 ∈ (setupForgivingGo pre rndT rndP i ts ps).1,
        t2.ariaSelected = some "false" := by
  intro i ts
  induction ts generalizing i with
  | nil => intro ps h t2 ht; simp [setupForgivingGo] at ht
  | cons t ts ih =>
    intro ps h t2 ht
    cases ps with
    | nil => simp at h
    | cons p ps =>
      simp only [setupForgivingGo, List.mem_cons] at ht
      rcases ht with rfl | ht
      · exact (forgivingStep_components _ _ _ _ _ _).2.2.2.2.1
      · exact ih (i + 1) ps (by simpa using h) t2 ht

theorem selectTab_zero_currentIndex (cfg : TabsConfig) (s : TabsState)
    (h : s.currentIndex = 0) (b : Bool) :
    (selectTab cfg s (0 : Int) b).1.currentIndex = 0 := by
  unfold selectTab
  split_ifs
  · exact h
  · simp [updateTabStates]

/-- C4 counterexample: in a forgiving construction of two fully paired
tabs/panels where tab 1 is marked `aria-selected="true"` in the source
markup, the initial `currentIndex` is `0`, not `1` — the dynamic-state
reset rewrites every paired tab to unselected before the initial
selection reads the markup. -/
theorem initTabs_markup_preselect_ignored :
    (tabsPre.getD 1 default).ariaSelected = some "true" ∧
    (outState (initTabs cfgDefault rnd0 rnd0 (some tl0) tabsPre
      s2x2.panels)).currentIndex = 0 := by
  decide

/-- C4 (amended): no construction ever emits the change announcement (the
initial selection passes `shouldAnnounce = false` and nothing else
announces), and in forgiving mode with every tab paired to a panel the
initial index is always 0 — a source-markup `aria-selected="true"` on a
paired tab is erased by the reset pass before the initial selection reads
it, so it cannot determine the initial `currentIndex`. -/
theorem initTabs_initial_selection (cfg : TabsConfig) (rndT rndP : Nat → String)
    (tablist : Option TablistEl) (tl : TablistEl) (tabs panels : List Elem) :
    (∀ m, Effect.announce m ∉ outEffs (initTabs cfg rndT rndP tablist tabs panels)) ∧
    (cfg.strict = false → tabs.length ≤ panels.length →
      (outState (initTabs cfg rndT rndP (some tl) tabs panels)).currentIndex = 0) := by
  refine ⟨fun m => initTabs_no_announce cfg rndT rndP tablist tabs panels m, ?_⟩
  intro hs hlen
  have herr : (setupARIA cfg rndT rndP (some tl) tabs panels).err = none := by
    unfold setupARIA
    simp [hs]
  have hall : ∀ t2 ∈ (setupARIA cfg rndT rndP (some tl) tabs panels).tabs,
      t2.ariaSelected = some "false" := by
    unfold setupARIA
    simp only [hs, Bool.false_eq_true, if_false]
    exact setupForgivingGo_all_unselected cfg.idPref rndT rndP 0 tabs panels hlen
  have hfind : findIndexJs (fun tab => tab.ariaSelected == some "true")
      (setupARIA cfg rndT rndP (some tl) tabs panels).tabs = -1 := by
    unfold findIndexJs
    apply findIndexAux_all_false
    intro x hx
    simp [hall x hx]
  unfold initTabs
  simp only [herr, outState]
  unfold selectInitialTab
  simp only [hfind]
  norm_num
  exact selectTab_zero_currentIndex cfg _ rfl false

/-- Witness for `initTabs_initial_selection` on the fully paired
pre-selected fixture. -/
theorem initTabs_initial_selection_witness :
    (cfgDefault.strict = false ∧ tabsPre.length ≤ s2x2.panels.length) ∧
    (outState (initTabs cfgDefault rnd0 rnd0 (some tl0) tabsPre
      s2x2.panels)).currentIndex = 0 :=
  ⟨⟨by decide, by decide⟩,
   (initTabs_initial_selection cfgDefault rnd0 rnd0 (some tl0) tl0 tabsPre
     s2x2.panels).2 (by decide) (by decide)⟩

/-- C7 counterexample: strict mode over two pairs where tab 0 is fully
valid and tab 1 lacks its role marker — construction raises
`MISSING_TAB_ROLE`, but pair 0 has already received dynamic initial state
(tab 0 reset to unselected, panel 0 hidden) before the throw,
contradicting "no dynamic initial state applied to any tab/panel pair". -/
theorem strict_throw_after_partial_dynamic :
    outErr (initTabs cfgStrict rnd0 rnd0 (some tl0) tabsStrictCE s2x2.panels) =
      some MISSING_TAB_ROLE ∧
    ((outState (initTabs cfgStrict rnd0 rnd0 (some tl0) tabsStrictCE
      s2x2.panels)).tabs.getD 0 default).ariaSelected = some "false" ∧
    (tabsStrictCE.getD 0 default).ariaSelected = none ∧
    ((outState (initTabs cfgStrict rnd0 rnd0 (some tl0) tabsStrictCE
      s2x2.panels)).panels.getD 0 default).hidden = true ∧
    (s2x2.panels.getD 0 default).hidden = false := by
  decide

/-- C7 (amended): in strict mode, if the pairs before index `k` validate
and the pair at `k` fails one of the four checks, construction raises the
setup error identifying that missing marker; the failing pair and every
later pair receive no dynamic initial state, but every pair before the
failing index has already received it when the exception propagates. -/
theorem initTabs_strict_error (cfg : TabsConfig) (rndT rndP : Nat → String)
    (tl : TablistEl) (tabs panels : List Elem) (k : Nat) (msg : String)
    (hstrict : cfg.strict = true) (hkt : k < tabs.length) (hkp : k < panels.length)
    (hok : ∀ j, j < k → validateRequiredAttributes (tabs.getD j default)
      (panels.getD j default) = Except.ok ())
    (herr : validateRequiredAttributes (tabs.getD k default)
      (panels.getD k default) = Except.error msg) :
    outErr (initTabs cfg rndT rndP (some tl) tabs panels) = some msg ∧
    (∀ j, j < k →
      ((outState (initTabs cfg rndT rndP (some tl) tabs panels)).tabs.getD j
          default =
        (setInitialDynamicAttributes (tabs.getD j default)
          (panels.getD j default)).1) ∧
      ((outState (initTabs cfg rndT rndP (some tl) tabs panels)).panels.getD j
          default =
        (setInitialDynamicAttributes (tabs.getD j default)
          (panels.getD j default)).2)) ∧
    (∀ j, k ≤ j →
      ((outState (initTabs cfg rndT rndP (some tl) tabs panels)).tabs.getD j
          default = tabs.getD j default) ∧
      ((outState (initTabs cfg rndT rndP (some tl) tabs panels)).panels.getD j
          default = panels.getD j default)) := by
  have hspec := setupStrictGo_error_spec tabs panels k msg hkt hkp hok herr
  have haerr : (setupARIA cfg rndT rndP (some tl) tabs panels).err = some msg := by
    unfold setupARIA
    simp [hstrict, hspec.1]
  have hatabs : (setupARIA cfg rndT rndP (some tl) tabs panels).tabs =
      (setupStrictGo tabs panels).1 := by
    unfold setupARIA
    simp [hstrict]
  have hapanels : (setupARIA cfg rndT rndP (some tl) tabs panels).panels =
      (setupStrictGo tabs panels).2.1 := by
    unfold setupARIA
    simp [hstrict]
  unfold initTabs
  simp only [haerr, outErr, outState]
  refine ⟨by trivial, ?_, ?_⟩
  · intro j hj
    simp only [hatabs, hapanels]
    exact hspec.2.1 j hj
  · intro j hj
    simp only [hatabs, hapanels]
    exact hspec.2.2 j hj

/-- Witness for `initTabs_strict_error` at the two-pair fixture failing at
index 1. -/
theorem initTabs_strict_error_witness :
    (cfgStrict.strict = true ∧ 1 < tabsStrictCE.length ∧ 1 < s2x2.panels.length ∧
     validateRequiredAttributes (tabsStrictCE.getD 1 default)
       (s2x2.panels.getD 1 default) = Except.error MISSING_TAB_ROLE) ∧
    outErr (initTabs cfgStrict rnd0 rnd0 (some tl0) tabsStrictCE s2x2.panels) =
      some MISSING_TAB_ROLE ∧
    (∀ j, j < 1 →
      ((outState (initTabs cfgStrict rnd0 rnd0 (some tl0) tabsStrictCE
          s2x2.panels)).tabs.getD j default =
        (setInitialDynamicAttributes (tabsStrictCE.getD j default)
          (s2x2.panels.getD j default)).1) ∧
      ((outState (initTabs cfgStrict rnd0 rnd0 (some tl0) tabsStrictCE
          s2x2.panels)).panels.getD j default =
        (setInitialDynamicAttributes (tabsStrictCE.getD j default)
          (s2x2.panels.getD j default)).2)) ∧
    (∀ j, 1 ≤ j →
      ((outState (initTabs cfgStrict rnd0 rnd0 (some tl0) tabsStrictCE
          s2x2.panels)).tabs.getD j default = tabsStrictCE.getD j default) ∧
      ((outState (initTabs cfgStrict rnd0 rnd0 (some tl0) tabsStrictCE
          s2x2.panels)).panels.getD j default = s2x2.panels.getD j default)) :=
  ⟨⟨by decide, by decide, by decide, by rfl⟩,
   initTabs_strict_error cfgStrict rnd0 rnd0 tl0 tabsStrictCE s2x2.panels 1
     MISSING_TAB_ROLE (by decide) (by decide) (by decide)
     (by
       intro j hj
       have hj0 : j = 0 := by omega
       subst hj0
       rfl)
     (by rfl)⟩

/-- C8 counterexample: a tab whose markup already carries `role="button"`
has that role overwritten to `"tab"` by forgiving reconciliation — a
pre-existing role attribute value is not left unchanged. -/
theorem forgiving_role_overwritten :
    tabRoleBtn.role = some "button" ∧
    ((outState (initTabs cfgDefault rnd0 rnd0 (some tl0) [tabRoleBtn]
      panels1)).tabs.getD 0 default).role = some "tab" := by
  decide

theorem applyOrientationStyling_role (cfg : TabsConfig) (x : TablistEl) :
    (applyOrientationStyling cfg x).role = x.role := by
  unfold applyOrientationStyling
  split_ifs <;> rfl

theorem setTablistAttributes_role (cfg : TabsConfig) (tl : TablistEl) :
    (attrFalsy tl.role = true → (setTablistAttributes cfg tl).role = some "tablist") ∧
    (attrFalsy tl.role = false → (setTablistAttributes cfg tl).role = tl.role) := by
  unfold setTablistAttributes
  constructor <;> intro h <;> simp [h]

theorem selectInitialTab_preserves_static (cfg : TabsConfig) (s : TabsState)
    (j : Nat) :
    ((selectInitialTab cfg s).1.tablist = s.tablist) ∧
    ((selectInitialTab cfg s).1.tabs.length = s.tabs.length) ∧
    ((selectInitialTab cfg s).1.panels.length = s.panels.length) ∧
    (((selectInitialTab cfg s).1.tabs.getD j default).role =
      (s.tabs.getD j default).role) ∧
    (((selectInitialTab cfg s).1.tabs.getD j default).id =
      (s.tabs.getD j default).id) ∧
    (((selectInitialTab cfg s).1.tabs.getD j default).ariaControls =
      (s.tabs.getD j default).ariaControls) ∧
    (((selectInitialTab cfg s).1.panels.getD j default).role =
      (s.panels.getD j default).role) ∧
    (((selectInitialTab cfg s).1.panels.getD j default).id =
      (s.panels.getD j default).id) ∧
    (((selectInitialTab cfg s).1.panels.getD j default).ariaLabelledby =
      (s.panels.getD j default).ariaLabelledby) := by
  unfold selectInitialTab
  exact selectTab_preserves_static cfg s _ false j

/-- C8 (amended): in forgiving mode, for every index where both a tab and
a panel exist, the "controls" and "labelled-by" relations are always
(re)written, and the tab's and panel's role markers are also always
(re)written to `"tab"`/`"tabpanel"` regardless of any prior value; only
the tablist's role is written only when it was absent (a pre-existing
tablist role is preserved). -/
theorem initTabs_forgiving_static_attributes (cfg : TabsConfig)
    (rndT rndP : Nat → String) (tl : TablistEl) (tabs panels : List Elem)
    (j : Nat) (hs : cfg.strict = false) (hjt : j < tabs.length)
    (hjp : j < panels.length) :
    outErr (initTabs cfg rndT rndP (some tl) tabs panels) = none ∧
    ((outState (initTabs cfg rndT rndP (some tl) tabs panels)).tabs.getD j
      default).role = some "tab" ∧
    ((outState (initTabs cfg rndT rndP (some tl) tabs panels)).panels.getD j
      default).role = some "tabpanel" ∧
    ((outState (initTabs cfg rndT rndP (some tl) tabs panels)).tabs.getD j
      default).ariaControls =
      some ((outState (initTabs cfg rndT rndP (some tl) tabs
        panels)).panels.getD j default).id ∧
    ((outState (initTabs cfg rndT rndP (some tl) tabs panels)).panels.getD j
      default).ariaLabelledby =
      some ((outState (initTabs cfg rndT rndP (some tl) tabs
        panels)).tabs.getD j default).id ∧
    (∀ tlOut, (outState (initTabs cfg rndT rndP (some tl) tabs
        panels)).tablist = some tlOut →
      (attrFalsy tl.role = true → tlOut.role = some "tablist") ∧
      (attrFalsy tl.role = false → tlOut.role = tl.role)) := by
  have herr : (setupARIA cfg rndT rndP (some tl) tabs panels).err = none := by
    unfold setupARIA
    simp [hs]
  have hatabs : (setupARIA cfg rndT rndP (some tl) tabs panels).tabs =
      (setupForgivingGo cfg.idPref rndT rndP 0 tabs panels).1 := by
    unfold setupARIA
    simp [hs]
  have hapanels : (setupARIA cfg rndT rndP (some tl) tabs panels).panels =
      (setupForgivingGo cfg.idPref rndT rndP 0 tabs panels).2 := by
    unfold setupARIA
    simp [hs]
  have hatl : (setupARIA cfg rndT rndP (some tl) tabs panels).tablist =
      some (applyOrientationStyling cfg (setTablistAttributes cfg tl)) := by
    unfold setupARIA
    simp [hs]
  have hstep := setupForgivingGo_getD cfg.idPref rndT rndP 0 tabs panels j hjt hjp
  have hcomp := forgivingStep_components cfg.idPref (rndT (0 + j)) (rndP (0 + j))
    (0 + j) (tabs.getD j default) (panels.getD j default)
  have hpres := selectInitialTab_preserves_static cfg
    ⟨(setupARIA cfg rndT rndP (some tl) tabs panels).tablist,
     (setupARIA cfg rndT rndP (some tl) tabs panels).tabs,
     (setupARIA cfg rndT rndP (some tl) tabs panels).panels, 0⟩ j
  simp only at hpres
  unfold initTabs
  simp only [herr, outErr, outState]
  refine ⟨by trivial, ?_, ?_, ?_, ?_, ?_⟩
  · rw [hpres.2.2.2.1]
    rw [hatabs, hstep.1]
    exact hcomp.1
  · rw [hpres.2.2.2.2.2.2.1]
    rw [hapanels, hstep.2]
    exact hcomp.2.1
  · rw [hpres.2.2.2.2.2.1, hpres.2.2.2.2.2.2.2.1]
    rw [hatabs, hapanels, hstep.1, hstep.2]
    exact hcomp.2.2.1
  · rw [hpres.2.2.2.2.2.2.2.2, hpres.2.2.2.2.1]
    rw [hatabs, hapanels, hstep.1, hstep.2]
    exact hcomp.2.2.2.1
  · intro tlOut htl
    rw [hpres.1] at htl
    rw [hatl] at htl
    have htl2 : tlOut = applyOrientationStyling cfg (setTablistAttributes cfg tl) := by
      injection htl with h
      exact h.symm
    subst htl2
    rw [applyOrientationStyling_role]
    exact ⟨fun h => (setTablistAttributes_role cfg tl).1 h,
           fun h => (setTablistAttributes_role cfg tl).2 h⟩

/-- Witness for `initTabs_forgiving_static_attributes` at pair 0 of a
construction whose tab carries a pre-existing role. -/
theorem initTabs_forgiving_static_attributes_witness :
    (cfgDefault.strict = false ∧ 0 < (([tabRoleBtn]) : List Elem).length ∧
      0 < panels1.length) ∧
    (outErr (initTabs cfgDefault rnd0 rnd0 (some tl0) [tabRoleBtn] panels1) =
      none ∧
    ((outState (initTabs cfgDefault rnd0 rnd0 (some tl0) [tabRoleBtn]
      panels1)).tabs.getD 0 default).role = some "tab" ∧
    ((outState (initTabs cfgDefault rnd0 rnd0 (some tl0) [tabRoleBtn]
      panels1)).panels.getD 0 default).role = some "tabpanel" ∧
    ((outState (initTabs cfgDefault rnd0 rnd0 (some tl0) [tabRoleBtn]
      panels1)).tabs.getD 0 default).ariaControls =
      some ((outState (initTabs cfgDefault rnd0 rnd0 (some tl0) [tabRoleBtn]
        panels1)).panels.getD 0 default).id ∧
    ((outState (initTabs cfgDefault rnd0 rnd0 (some tl0) [tabRoleBtn]
      panels1)).panels.getD 0 default).ariaLabelledby =
      some ((outState (initTabs cfgDefault rnd0 rnd0 (some tl0) [tabRoleBtn]
        panels1)).tabs.getD 0 default).id ∧
    (∀ tlOut, (outState (initTabs cfgDefault rnd0 rnd0 (some tl0) [tabRoleBtn]
        panels1)).tablist = some tlOut →
      (attrFalsy tl0.role = true → tlOut.role = some "tablist") ∧
      (attrFalsy tl0.role = false → tlOut.role = tl0.role))) :=
  ⟨⟨by decide, by decide, by decide⟩,
   initTabs_forgiving_static_attributes cfgDefault rnd0 rnd0 tl0 [tabRoleBtn]
     panels1 0 (by decide) (by decide) (by decide)⟩

/-- C9 counterexample: with 2 tabs and 1 panel, after construction panel 0
is visible (index 0 selected); selecting the unpaired tab 1 flips panel
0's hidden state to `true` — a panel's visibility does change as a result
of selecting the unpaired tab. -/
theorem select_unpaired_hides_visible_panel :
    (sMismatch.panels.getD 0 default).hidden = false ∧
    ((selectTab cfgDefault sMismatch (1 : Int) true).1.panels.getD 0
      default).hidden = true := by
  decide

/-- C9 (amended): a tab/panel count mismatch (with at least one panel)
reports the mismatch warning and construction proceeds; selecting a tab
with no paired panel makes no panel visible — every panel whose index has
a tab is set hidden (including the previously visible one). -/
theorem mismatch_warning_and_unpaired_selection (cfg : TabsConfig)
    (rndT rndP : Nat → String) (tl : TablistEl) (tabs panels : List Elem)
    (hp : 1 ≤ panels.length) (hmm : panels.length < tabs.length) :
    Effect.consoleWarn MISMATCH_COUNT ∈
      outEffs (initTabs cfg rndT rndP (some tl) tabs panels) ∧
    (∀ (s : TabsState) (i : Nat), s.panels.length ≤ i → i < s.tabs.length →
      ∀ j, j < s.panels.length →
        (((selectTab cfg s (i : Int) true).1.panels.getD j default).hidden =
          true)) := by
  constructor
  · have heffs0 : validateElements (some tl) tabs panels =
        [Effect.consoleWarn MISMATCH_COUNT] := by
      unfold validateElements
      split_ifs with h1 h2 h3
      · simp at h1
      · exfalso
        simp only [Bool.or_eq_true, beq_iff_eq] at h2
        omega
      · rfl
      · exfalso
        simp at h3
        omega
    unfold initTabs
    cases ha : (setupARIA cfg rndT rndP (some tl) tabs panels).err with
    | some msg => simp [ha, outEffs, heffs0]
    | none => simp [ha, outEffs, heffs0]
  · intro s i hip hit j hj
    rw [selectTab_valid_eq cfg s i hit]
    simp only [updateTabStates]
    rw [getD_mapFrom _ 0 j s.panels default hj]
    simp only [Nat.zero_add, updateOnePanel]
    rw [if_pos (by omega)]
    simp only
    have : (j == i) = false := by
      simp only [beq_eq_false_iff_ne, ne_eq]
      omega
    simp [this]

/-- Witness for `mismatch_warning_and_unpaired_selection` on the 2-tab,
1-panel fixture, selecting unpaired index 1. -/
theorem mismatch_warning_and_unpaired_selection_witness :
    (1 ≤ panels1.length ∧ panels1.length < s2x2.tabs.length) ∧
    Effect.consoleWarn MISMATCH_COUNT ∈
      outEffs (initTabs cfgDefault rnd0 rnd0 (some tl0) s2x2.tabs panels1) ∧
    (sMismatch.panels.length ≤ 1 ∧ 1 < sMismatch.tabs.length ∧ 0 < sMismatch.panels.length ∧
     ((selectTab cfgDefault sMismatch (1 : Int) true).1.panels.getD 0
       default).hidden = true) :=
  ⟨⟨by decide, by decide⟩,
   (mismatch_warning_and_unpaired_selection cfgDefault rnd0 rnd0 tl0 s2x2.tabs
     panels1 (by decide) (by decide)).1,
   by decide, by decide, by decide,
   (mismatch_warning_and_unpaired_selection cfgDefault rnd0 rnd0 tl0 s2x2.tabs
     panels1 (by decide) (by decide)).2 sMismatch 1 (by decide) (by decide) 0
     (by decide)⟩

theorem selectTab_currentIndex_changed (cfg : TabsConfig) (s0 : TabsState)
    (idx : Int) (b : Bool) (h0 : s0.currentIndex = 0)
    (hne : (selectTab cfg s0 idx b).1.currentIndex ≠ 0) :
    Effect.onChange (selectTab cfg s0 idx b).1.currentIndex
      ((selectTab cfg s0 idx b).1.tabs.getD
        (selectTab cfg s0 idx b).1.currentIndex default) ∈
      (selectTab cfg s0 idx b).2 := by
  unfold selectTab at hne ⊢
  split_ifs at hne ⊢ with hv
  · exact absurd h0 (by simpa using hne)
  · simp only at hne ⊢
    have hcur : (updateTabStates { s0 with currentIndex := idx.toNat }
        idx.toNat).currentIndex = idx.toNat := by
      simp [updateTabStates]
    rw [hcur] at hne ⊢
    have hnotify : notifyTabChange
        (updateTabStates { s0 with currentIndex := idx.toNat } idx.toNat)
        idx.toNat s0.currentIndex =
        [Effect.onChange idx.toNat
          ((updateTabStates { s0 with currentIndex := idx.toNat }
            idx.toNat).tabs.getD idx.toNat default)] := by
      unfold notifyTabChange
      rw [if_neg]
      simp only [beq_iff_eq, h0]
      omega
    rw [hnotify]
    simp

theorem selectTab_valid_or_unchanged (cfg : TabsConfig) (s0 : TabsState)
    (idx : Int) (b : Bool) :
    ((selectTab cfg s0 idx b).1.currentIndex = s0.currentIndex) ∨
    (isValidTabIndex s0 idx = true ∧
      (selectTab cfg s0 idx b).1.currentIndex = idx.toNat) := by
  unfold selectTab
  split_ifs with hv
  · exact Or.inl rfl
  · refine Or.inr ⟨by simpa using hv, ?_⟩
    simp [updateTabStates]

/-- C10 (implicit): the `onChange` callback can fire during construction —
whenever a successful construction ends with `currentIndex = i ≠ 0`, the
constructor has invoked `onChange` with `(i, tabs[i])` while emitting no
announcement (only the announcement is suppressed for the initial
selection, not the callback); and when a tablist was present, such an
`i ≠ 0` is possible only for a tab with no paired panel
(`i ≥ |panels|`), because every paired tab is reset to unselected before
the initial selection is read. -/
theorem initTabs_onChange_during_construction (cfg : TabsConfig)
    (rndT rndP : Nat → String) (tablist : Option TablistEl)
    (tabs panels : List Elem) (s : TabsState) (effs : List Effect)
    (hout : initTabs cfg rndT rndP tablist tabs panels = InitOutcome.ok s effs)
    (hne : s.currentIndex ≠ 0) :
    Effect.onChange s.currentIndex (s.tabs.getD s.currentIndex default) ∈ effs ∧
    (∀ m, Effect.announce m ∉ effs) ∧
    (∀ tl, tablist = some tl → s.panels.length ≤ s.currentIndex) := by
  have hann : ∀ m, Effect.announce m ∉ effs := by
    intro m
    have h := initTabs_no_announce cfg rndT rndP tablist tabs panels m
    rw [hout] at h
    simpa [outEffs] using h
  unfold initTabs at hout
  cases ha : (setupARIA cfg rndT rndP tablist tabs panels).err with
  | some msg =>
    simp only [ha] at hout
    exact absurd hout (by simp)
  | none =>
    simp only [ha] at hout
    injection hout with hs heffs
    subst hs
    subst heffs
    set S : TabsState :=
      { tablist := (setupARIA cfg rndT rndP tablist tabs panels).tablist,
        tabs := (setupARIA cfg rndT rndP tablist tabs panels).tabs,
        panels := (setupARIA cfg rndT rndP tablist tabs panels).panels,
        currentIndex := 0 } with hS
    refine ⟨?_, hann, ?_⟩
    · simp only [List.mem_append]
      right
      unfold selectInitialTab at hne ⊢
      simp only at hne ⊢
      exact selectTab_currentIndex_changed cfg S _ false (by rw [hS]) hne
    · intro tl htl
      subst htl
      unfold selectInitialTab at hne ⊢
      simp only at hne ⊢
      set pre : Int :=
        findIndexJs (fun tab => tab.ariaSelected == some "true") S.tabs with hpre
      set IDX : Int := if 0 ≤ pre then pre else 0 with hIDX
      rcases selectTab_valid_or_unchanged cfg S IDX false with hsame | ⟨hv, hcur⟩
      · rw [hsame] at hne
        exact absurd (by rw [hS]) hne
      · rw [hcur] at hne ⊢
        rw [(selectTab_preserves_static cfg S IDX false 0).2.2.1]
        rcases findIndexAux_cases (fun tab => tab.ariaSelected == some "true")
            default S.tabs 0 with hneg | ⟨k, hk, hklen, hp⟩
        · have hpre1 : pre = -1 := by rw [hpre]; exact hneg
          rw [hpre1] at hIDX
          have hIDX0 : IDX = 0 := by rw [hIDX]; norm_num
          rw [hIDX0] at hne
          simp at hne
        · have hpk : pre = (k : Int) := by
            rw [hpre]
            show findIndexAux _ S.tabs 0 = (k : Int)
            rw [hk]
            norm_num
          have hIDXk : IDX = (k : Int) := by
            rw [hIDX, hpk]
            simp
          rw [hIDXk, Int.toNat_natCast]
          by_contra hlt
          push_neg at hlt
          have hlens := setupARIA_lengths cfg rndT rndP (some tl) tabs panels
          have hSt : S.tabs.length = tabs.length := by
            rw [hS]
            simpa using hlens.1
          have hSp : S.panels.length = panels.length := by
            rw [hS]
            simpa using hlens.2
          have hkt : k < tabs.length := by omega
          have hkp : k < panels.length := by omega
          have hunsel := setupARIA_paired_unselected cfg rndT rndP tl tabs
            panels ha k hkt hkp
          simp only at hp
          have hgetD : S.tabs.getD k default =
              (setupARIA cfg rndT rndP (some tl) tabs panels).tabs.getD k
                default := by
            rw [hS]
          rw [hgetD, hunsel] at hp
          simp at hp

/-- Witness for `initTabs_onChange_during_construction`: two tabs with the
unpaired tab 1 pre-selected in the markup and a single panel. -/
theorem initTabs_onChange_during_construction_witness :
    (initTabs cfgDefault rnd0 rnd0 (some tl0) tabsPre panels1 =
      InitOutcome.ok
        (outState (initTabs cfgDefault rnd0 rnd0 (some tl0) tabsPre panels1))
        (outEffs (initTabs cfgDefault rnd0 rnd0 (some tl0) tabsPre panels1)) ∧
     (outState (initTabs cfgDefault rnd0 rnd0 (some tl0) tabsPre
       panels1)).currentIndex ≠ 0) ∧
    (Effect.onChange
        (outState (initTabs cfgDefault rnd0 rnd0 (some tl0) tabsPre
          panels1)).currentIndex
        ((outState (initTabs cfgDefault rnd0 rnd0 (some tl0) tabsPre
          panels1)).tabs.getD
          (outState (initTabs cfgDefault rnd0 rnd0 (some tl0) tabsPre
            panels1)).currentIndex default) ∈
        outEffs (initTabs cfgDefault rnd0 rnd0 (some tl0) tabsPre panels1) ∧
     (∀ m, Effect.announce m ∉
        outEffs (initTabs cfgDefault rnd0 rnd0 (some tl0) tabsPre panels1)) ∧
     (∀ tl, (some tl0 : Option TablistEl) = some tl →
       (outState (initTabs cfgDefault rnd0 rnd0 (some tl0) tabsPre
         panels1)).panels.length ≤
       (outState (initTabs cfgDefault rnd0 rnd0 (some tl0) tabsPre
         panels1)).currentIndex)) :=
  ⟨⟨by decide, by decide⟩,
   initTabs_onChange_during_construction cfgDefault rnd0 rnd0 (some tl0)
     tabsPre panels1 _ _ (by decide) (by decide)⟩
